import Mathlib

set_option maxRecDepth 40000

/-!
Shallow embedding of `app.py` from the github-portfolio-analyzer repository:
the scoring engine, the portfolio aggregation, the recommendation generator,
the GitHub data fetcher (with the network modelled as an explicit oracle) and
the response-parsing path of the AI assessment adapter.
-/

/-- JSON values, as produced by Python `json.loads`. -/
inductive Json where
  | null : Json
  | bool (b : Bool) : Json
  | num (n : Int) : Json
  | str (s : String) : Json
  | arr (elems : List Json) : Json
  | obj (fields : List (String × Json)) : Json

/-- The opening brace character, written by code point. -/
def lbrace : Char := Char.ofNat 123

/-- The closing brace character, written by code point. -/
def rbrace : Char := Char.ofNat 125

/-- Drop leading JSON/Python whitespace. -/
def skipWs : List Char → List Char
  | [] => []
  | c :: cs => if c = ' ' || c = '\n' || c = '\t' || c = '\r' then skipWs cs else c :: cs

/-- Body of a JSON string literal after the opening quote: collects characters
(translating the common escapes) up to the closing quote. -/
def parseStrAux : List Char → List Char → Option (String × List Char)
  | acc, '"' :: rest => some (String.mk acc.reverse, rest)
  | acc, '\\' :: '"' :: rest => parseStrAux ('"' :: acc) rest
  | acc, '\\' :: '\\' :: rest => parseStrAux ('\\' :: acc) rest
  | acc, '\\' :: '/' :: rest => parseStrAux ('/' :: acc) rest
  | acc, '\\' :: 'n' :: rest => parseStrAux ('\n' :: acc) rest
  | acc, '\\' :: 't' :: rest => parseStrAux ('\t' :: acc) rest
  | acc, '\\' :: 'r' :: rest => parseStrAux ('\r' :: acc) rest
  | _, '\\' :: _ :: _ => none
  | _, '\\' :: [] => none
  | acc, c :: rest => parseStrAux (c :: acc) rest
  | _, [] => none

/-- Value of a non-empty digit string. -/
def digitsToNat (ds : List Char) : Nat :=
  ds.foldl (fun n c => n * 10 + (c.toNat - '0'.toNat)) 0

mutual

/-- Modelled from Python `json.loads` (recursive descent over the subset the
adapter's strict-JSON contract uses: `null`, booleans, integers, strings with
the common escapes, arrays and objects).  `fuel` bounds the recursion depth;
`json_loads` supplies more than enough for its input. -/
def parseVal : Nat → List Char → Option (Json × List Char)
  | 0, _ => none
  | fuel + 1, cs =>
    match skipWs cs with
    | 'n' :: 'u' :: 'l' :: 'l' :: rest => some (Json.null, rest)
    | 't' :: 'r' :: 'u' :: 'e' :: rest => some (Json.bool true, rest)
    | 'f' :: 'a' :: 'l' :: 's' :: 'e' :: rest => some (Json.bool false, rest)
    | '"' :: rest => (parseStrAux [] rest).map (fun p => (Json.str p.1, p.2))
    | '[' :: rest =>
      (match skipWs rest with
       | ']' :: rest2 => some (Json.arr [], rest2)
       | rest2 => (parseElems fuel rest2).map (fun p => (Json.arr p.1, p.2)))
    | '-' :: rest =>
      (match rest.span Char.isDigit with
       | ([], _) => none
       | (ds, rest2) => some (Json.num (-(digitsToNat ds : Int)), rest2))
    | c :: rest =>
      if c = lbrace then
        match skipWs rest with
        | c2 :: rest2 =>
          if c2 = rbrace then some (Json.obj [], rest2)
          else (parseMembers fuel (c2 :: rest2)).map (fun p => (Json.obj p.1, p.2))
        | [] => none
      else if c.isDigit then
        match (c :: rest).span Char.isDigit with
        | (ds, rest2) => some (Json.num (digitsToNat ds : Int), rest2)
      else none
    | [] => none

/-- One or more comma-separated array elements followed by the closing
bracket. -/
def parseElems : Nat → List Char → Option (List Json × List Char)
  | 0, _ => none
  | fuel + 1, cs =>
    match parseVal fuel cs with
    | none => none
    | some (v, rest) =>
      match skipWs rest with
      | ',' :: rest2 => (parseElems fuel rest2).map (fun p => (v :: p.1, p.2))
      | ']' :: rest2 => some ([v], rest2)
      | _ => none

/-- One or more comma-separated object members followed by the closing
brace. -/
def parseMembers : Nat → List Char → Option (List (String × Json) × List Char)
  | 0, _ => none
  | fuel + 1, cs =>
    match skipWs cs with
    | '"' :: rest =>
      (match parseStrAux [] rest with
       | none => none
       | some (k, rest1) =>
         match skipWs rest1 with
         | ':' :: rest2 =>
           (match parseVal fuel rest2 with
            | none => none
            | some (v, rest3) =>
              match skipWs rest3 with
              | ',' :: rest4 => (parseMembers fuel rest4).map (fun p => ((k, v) :: p.1, p.2))
              | c :: rest4 => if c = rbrace then some ([(k, v)], rest4) else none
              | [] => none)
         | _ => none)
    | _ => none

end

/-- Python `json.loads`: parse one JSON value and require only whitespace to
remain; `none` models the raised `json.JSONDecodeError`. -/
def json_loads (s : String) : Option Json :=
  match parseVal (2 * s.length + 2) s.data with
  | some (v, rest) => if (skipWs rest).isEmpty then some v else none
  | none => none

/-- All-occurrence, left-to-right, non-overlapping replacement on character
lists (the semantics of Python `str.replace`).  `fuel` bounds the scan; callers
supply the input length, which suffices for non-empty patterns. -/
def replaceAux (pat repl : List Char) : Nat → List Char → List Char
  | 0, cs => cs
  | _ + 1, [] => []
  | fuel + 1, c :: cs =>
    if pat.isPrefixOf (c :: cs) then repl ++ replaceAux pat repl fuel (List.drop pat.length (c :: cs))
    else c :: replaceAux pat repl fuel cs

/-- Python `str.replace`. -/
def pyReplace (s pat repl : String) : String :=
  String.mk (replaceAux pat.data repl.data (s.length + 1) s.data)

/-- Python default `str.strip` whitespace (the kinds that occur in model
output). -/
def isSpaceChar (c : Char) : Bool := c = ' ' || c = '\n' || c = '\t' || c = '\r'

/-- Python `str.strip`. -/
def pyStrip (s : String) : String :=
  String.mk (((s.data.dropWhile isSpaceChar).reverse.dropWhile isSpaceChar).reverse)

/-- The fence stripping `analyze_with_ai` applies to the model response text
(src/app.py line 386): drop every occurrence of the json code-fence opener,
then every remaining fence marker, then surrounding whitespace. -/
def stripFences (t : String) : String :=
  pyStrip (pyReplace (pyReplace t "```json" "") "```" "")

/-- `analyze_with_ai` (src/app.py lines 327-390), reduced to its observable
input/output behaviour.  `model_name = none` is the missing-model short
circuit; `responseText = none` models an exception raised by the generation
call (caught by the function's `try`, surfaced as an error message, `None`
returned).  Otherwise the response text is fence-stripped and decoded with
`json.loads`, whose decode failure is caught the same way.  No schema check of
any kind is applied to the decoded value. -/
def analyze_with_ai (model_name : Option String) (responseText : Option String) : Option Json :=
  match model_name with
  | none => none
  | some _ =>
    match responseText with
    | none => none
    | some t => json_loads (stripFences t)

/-- Key membership in a decoded JSON object. -/
def hasKey (j : Json) (k : String) : Bool :=
  match j with
  | Json.obj fields => fields.any (fun p => p.1 == k)
  | _ => false

/-- The fields the AIAssessment schema requires. -/
def aiRequiredKeys : List String :=
  ["score", "verdict", "role", "summary", "skills", "soft_skills",
   "pros", "cons", "interview_questions", "archive_repos", "improve_repos"]

/-- One repository record: the raw API fields the code reads plus the fields
attached during enrichment.  `pushed_at` is the parsed timestamp in seconds
since the epoch (an unparseable `pushed_at` raises in the source and is outside
this model).  On a record not yet enriched, the enrichment fields
(`readme_exists` through `activity_score`) are placeholders that the code
never reads. -/
structure Repo where
  name : String
  full_name : String
  description : Option String
  homepage : Option String
  has_wiki : Bool
  has_pages : Bool
  has_issues : Bool
  has_projects : Bool
  size : Nat
  stargazers_count : Nat
  forks_count : Nat
  open_issues_count : Nat
  watchers_count : Nat
  pushed_at : Int
  language : Option String
  languages_url : String
  readme_exists : Bool
  readme_preview : Option String
  languages : List (String × Nat)
  languages_count : Nat
  commit_activity : Option (List Nat)
  doc_score : Nat
  code_score : Nat
  activity_score : Nat
deriving DecidableEq

/-- The user profile fields the code reads. -/
structure UserData where
  login : String
  name : Option String
  bio : Option String
  location : Option String
  followers : Nat
  following : Nat
  public_repos : Nat
  created_at : String
deriving DecidableEq

/-- The populated data bundle `{user, repos, orgs}`. -/
structure GHData where
  user : UserData
  repos : List Repo
  orgs : List String
deriving DecidableEq

/-- Return value of `get_enhanced_github_data`: the `"NO_TOKEN"` and `"ERROR"`
sentinel strings, or the populated bundle. -/
inductive FetchResult where
  | noToken : FetchResult
  | error : FetchResult
  | bundle (d : GHData) : FetchResult
deriving DecidableEq

/-- Python truthiness of an optional string field (`if repo.get('x'):`):
false for a missing value and for the empty string. -/
def truthyStr : Option String → Bool
  | none => false
  | some s => s != ""

/-- `calculate_documentation_score` (src/app.py lines 99-107): the sequential
`score +=` additions written as one sum, then `min(score, 100)`. -/
def calculate_documentation_score (repo : Repo) : Nat :=
  min ((if repo.readme_exists then 40 else 0) +
       (if truthyStr repo.description then 20 else 0) +
       (if truthyStr repo.homepage then 10 else 0) +
       (if repo.has_wiki then 15 else 0) +
       (if repo.has_pages then 15 else 0)) 100

/-- `calculate_code_quality_score` (src/app.py lines 109-117). -/
def calculate_code_quality_score (repo : Repo) : Nat :=
  min ((if 0 < repo.languages_count then 20 else 0) +
       (if repo.has_issues then 15 else 0) +
       (if repo.has_projects then 15 else 0) +
       (if 0 < repo.size then 25 else 0) +
       (if 0 < repo.stargazers_count then 25 else 0)) 100

/-- `calculate_activity_score` (src/app.py lines 119-134).  `now` makes the
source's call to `datetime.now()` an explicit input; `days_since_update` is the
floor of the elapsed seconds over 86400, as for Python `timedelta.days`. -/
def calculate_activity_score (repo : Repo) (now : Int) : Nat :=
  let days_since_update : Int := Int.fdiv (now - repo.pushed_at) 86400
  min ((if days_since_update < 7 then 40
        else if days_since_update < 30 then 30
        else if days_since_update < 90 then 20
        else 10) +
       (if 0 < repo.open_issues_count then 20 else 0) +
       (if 0 < repo.forks_count then 20 else 0) +
       (if 0 < repo.watchers_count then 20 else 0)) 100

/-- Python `round` to an integer: nearest, ties to even. -/
def pyRound (q : ℚ) : ℤ :=
  if q - ⌊q⌋ < 1/2 then ⌊q⌋
  else if 1/2 < q - ⌊q⌋ then ⌊q⌋ + 1
  else if ⌊q⌋ % 2 = 0 then ⌊q⌋ else ⌊q⌋ + 1

/-- Python `round(x, 1)`. -/
def round1 (q : ℚ) : ℚ := (pyRound (10 * q) : ℚ) / 10

/-- Mean of the stored per-repository documentation sub-scores
(src/app.py line 233). -/
def docAvg (d : GHData) : ℚ :=
  ((d.repos.map (fun r => (r.doc_score : ℚ))).sum) / (d.repos.length : ℚ)

/-- Mean of the stored per-repository code-quality sub-scores (line 234). -/
def codeAvg (d : GHData) : ℚ :=
  ((d.repos.map (fun r => (r.code_score : ℚ))).sum) / (d.repos.length : ℚ)

/-- Mean of the stored per-repository activity sub-scores (line 235). -/
def activityAvg (d : GHData) : ℚ :=
  ((d.repos.map (fun r => (r.activity_score : ℚ))).sum) / (d.repos.length : ℚ)

/-- Repository-organization bonuses (lines 238-241). -/
def orgScoreOf (d : GHData) : ℚ :=
  (if d.orgs.isEmpty then 0 else 20) +
  (if 5 ≤ d.repos.length then 20 else 0) +
  (if 3 ≤ d.repos.length then 20 else 0)

/-- Total stargazers over the bundle (line 247). -/
def totalStars (d : GHData) : Nat := (d.repos.map (fun r => r.stargazers_count)).sum

/-- Total forks over the bundle (line 248). -/
def totalForks (d : GHData) : Nat := (d.repos.map (fun r => r.forks_count)).sum

/-- Impact score (line 249). -/
def impactScoreOf (d : GHData) : ℚ :=
  min 100 (((totalStars d * 2 + totalForks d : Nat) : ℚ) / 5)

/-- The distinct language names over all repositories (lines 253-255). -/
def distinctLanguages (d : GHData) : List String :=
  (d.repos.flatMap (fun r => r.languages.map Prod.fst)).dedup

/-- Technical-depth score (lines 252-256). -/
def techScoreOf (d : GHData) : ℚ :=
  min 40 (((distinctLanguages d).length : ℚ) * 8)

/-- The weight dict of `calculate_portfolio_score` (lines 258-265). -/
structure Weights where
  documentation : ℚ
  code_quality : ℚ
  activity : ℚ
  organization : ℚ
  impact : ℚ
  technical_depth : ℚ

/-- The fixed dimension weights. -/
def weights : Weights :=
  { documentation := 0.20, code_quality := 0.20, activity := 0.15,
    organization := 0.15, impact := 0.15, technical_depth := 0.15 }

/-- The weighted combination producing `final_score` (lines 267-274). -/
def finalScoreOfDims (doc code act org imp tech : ℚ) : ℚ :=
  doc * weights.documentation + code * weights.code_quality + act * weights.activity +
  org * weights.organization + imp * weights.impact + tech * weights.technical_depth

/-- The non-empty branch of `calculate_portfolio_score`: final rounded score
and the rounded dimension map (lines 232-285). -/
def portfolioBody (d : GHData) : ℚ × List (String × ℚ) :=
  (round1 (finalScoreOfDims (docAvg d) (codeAvg d) (activityAvg d)
            (orgScoreOf d) (impactScoreOf d) (techScoreOf d)),
   [("Documentation Quality", round1 (docAvg d)),
    ("Code Structure & Best Practices", round1 (codeAvg d)),
    ("Activity Consistency", round1 (activityAvg d)),
    ("Repository Organization", round1 (orgScoreOf d)),
    ("Project Impact", round1 (impactScoreOf d)),
    ("Technical Depth", round1 (techScoreOf d))])

/-- `calculate_portfolio_score` (src/app.py lines 223-285): `(0, empty)` for
the sentinels and for an empty repository list, otherwise the rounded weighted
score with the dimension map. -/
def calculate_portfolio_score : FetchResult → ℚ × List (String × ℚ)
  | FetchResult.noToken => (0, [])
  | FetchResult.error => (0, [])
  | FetchResult.bundle d => if d.repos.isEmpty then (0, []) else portfolioBody d

/-- One recommendation entry. -/
structure Recommendation where
  repo : String
  issue : String
  action : String
  priority : String
deriving DecidableEq

/-- The per-repository recommendation rules (src/app.py lines 307-323), in
source order: low documentation sub-score first, then zero stars and forks. -/
def repoRecs (r : Repo) : List Recommendation :=
  (if r.doc_score < 40 then
     [{ repo := r.name, issue := "Missing Documentation",
        action := "Add a detailed README.md to " ++ r.name ++
                  " with project description and setup guide",
        priority := "High" }]
   else []) ++
  (if r.stargazers_count = 0 && r.forks_count = 0 then
     [{ repo := r.name, issue := "Low Impact",
        action := "Promote " ++ r.name ++
                  " on social media and add screenshots to attract users",
        priority := "Medium" }]
   else [])

/-- Every qualifying recommendation in evaluation order, before the `[:5]`
truncation: the two portfolio-wide rules, then the per-repository rules in
fetch order. -/
def allRecommendations (d : GHData) (docQ actC : ℚ) : List Recommendation :=
  (if docQ < 60 then
     [{ repo := "General", issue := "Poor Documentation",
        action := "Add comprehensive READMEs with setup instructions, features, and screenshots",
        priority := "High" }]
   else []) ++
  (if actC < 50 then
     [{ repo := "General", issue := "Inconsistent Activity",
        action := "Commit code at least 3-4 times per week to show active development",
        priority := "Medium" }]
   else []) ++
  d.repos.flatMap repoRecs

/-- `get_actionable_recommendations` (src/app.py lines 287-325).  The two
dictionary subscripts on `dimension_scores` raise `KeyError` when the map
lacks the key; `none` models that uncaught exception. -/
def get_actionable_recommendations (d : GHData) (dimension_scores : List (String × ℚ)) :
    Option (List Recommendation) :=
  match dimension_scores.lookup "Documentation Quality",
        dimension_scores.lookup "Activity Consistency" with
  | some docQ, some actC => some ((allRecommendations d docQ actC).take 5)
  | _, _ => none

/-- Observable outcome of one `requests.get` together with the decoding of its
body: a status code with the parsed body, or a raised exception (connection
error, JSON/base64 decoding error, ...). -/
inductive Resp (α : Type) where
  | ok (status : Nat) (body : α) : Resp α
  | exn : Resp α
deriving DecidableEq

/-- The network as one run of `get_enhanced_github_data` observes it: one
response per endpoint (repository pages keyed by page number, the three
per-repository enrichment endpoints keyed by the repository identifier used in
the source). -/
structure Net where
  user : Resp UserData
  repoPage : Nat → Resp (List Repo)
  readme : String → Resp String
  langs : String → Resp (List (String × Nat))
  commits : String → Resp (List Nat)
  orgs : Resp (List String)

/-- A call that fails in the sense of the spec: it raised an exception or
returned a non-success status. -/
def respFailed {α : Type} : Resp α → Bool
  | Resp.exn => true
  | Resp.ok s _ => s != 200

/-- `get_readme_content` (src/app.py lines 136-146): its own `try/except`
catches every exception; a 200 response yields the first 500 characters of the
decoded content, anything else yields `None`.  The `Resp` body is the decoded
README text. -/
def get_readme_content (r : Resp String) : Option String :=
  match r with
  | Resp.ok s content => if s = 200 then some (String.mk (content.data.take 500)) else none
  | Resp.exn => none

/-- `get_commit_activity` (src/app.py lines 148-157): its own `try/except`
catches every exception; a 200 response yields the parsed weekly commit
statistics, anything else yields `None`. -/
def get_commit_activity (r : Resp (List Nat)) : Option (List Nat) :=
  match r with
  | Resp.ok s body => if s = 200 then some body else none
  | Resp.exn => none

/-- The enrichment of one repository (src/app.py lines 186-208) on the path
where the languages request returns (does not raise): README fields, language
map and count (`\x7b\x7d` on a non-success status), commit activity, then the
three sub-scores computed from the updated record.  The `Resp.exn` arm for the
languages response is unreachable under `enrichRepo`. -/
def enrichOk (net : Net) (now : Int) (r : Repo) : Repo :=
  let readme := get_readme_content (net.readme r.full_name)
  let r1 := { r with readme_exists := readme.isSome, readme_preview := readme }
  let langs :=
    match net.langs r.languages_url with
    | Resp.ok s body => if s = 200 then body else []
    | Resp.exn => []
  let r2 := { r1 with languages := langs, languages_count := langs.length }
  let r3 := { r2 with commit_activity := get_commit_activity (net.commits r.full_name) }
  { r3 with doc_score := calculate_documentation_score r3,
            code_score := calculate_code_quality_score r3,
            activity_score := calculate_activity_score r3 now }

/-- One iteration of the enrichment loop.  The languages `requests.get`
(line 195) is the only call in the loop body not wrapped in a local
`try/except`, so an exception it raises propagates to the outer handler of
`get_enhanced_github_data`. -/
def enrichRepo (net : Net) (now : Int) (r : Repo) : Except Unit Repo :=
  match net.langs r.languages_url with
  | Resp.exn => Except.error ()
  | Resp.ok _ _ => Except.ok (enrichOk net now r)

/-- The enrichment loop over the fetched repositories, aborting at the first
propagated exception. -/
def enrichAll (net : Net) (now : Int) : List Repo → Except Unit (List Repo)
  | [] => Except.ok []
  | r :: rs =>
    match enrichRepo net now r with
    | Except.error e => Except.error e
    | Except.ok r2 =>
      match enrichAll net now rs with
      | Except.error e => Except.error e
      | Except.ok rs2 => Except.ok (r2 :: rs2)

/-- The pagination loop of `get_enhanced_github_data` (src/app.py lines
171-182): while fewer than 50 repositories are accumulated, fetch the next
page; a non-success status or an empty page stops the loop, an exception
propagates, and a non-empty page is appended whole.  `fuel` bounds the
recursion; each continuing iteration appends a non-empty page, so the real
loop runs at most 50 continuing iterations and the `fuel = 51` supplied by
`get_enhanced_github_data` is never exhausted. -/
def fetchPages (net : Net) : Nat → Nat → List Repo → Except Unit (List Repo)
  | 0, _, acc => Except.ok acc
  | fuel + 1, page, acc =>
    if acc.length < 50 then
      match net.repoPage page with
      | Resp.exn => Except.error ()
      | Resp.ok s pageRepos =>
        if s ≠ 200 then Except.ok acc
        else if pageRepos.isEmpty then Except.ok acc
        else fetchPages net fuel (page + 1) (acc ++ pageRepos)
    else Except.ok acc

/-- `get_enhanced_github_data` (src/app.py lines 159-221).  `token` is the
presence of `GITHUB_TOKEN`; the whole body after the token check sits in one
`try`, so any exception that reaches it yields the `"ERROR"` sentinel. -/
def get_enhanced_github_data (token : Bool) (net : Net) (now : Int) : FetchResult :=
  if !token then FetchResult.noToken
  else
    match net.user with
    | Resp.exn => FetchResult.error
    | Resp.ok s user_data =>
      if s ≠ 200 then FetchResult.error
      else
        match fetchPages net 51 1 [] with
        | Except.error _ => FetchResult.error
        | Except.ok repos =>
          match enrichAll net now repos with
          | Except.error _ => FetchResult.error
          | Except.ok enhanced =>
            match net.orgs with
            | Resp.exn => FetchResult.error
            | Resp.ok so orgsBody =>
              FetchResult.bundle { user := user_data, repos := enhanced,
                                   orgs := if so = 200 then orgsBody else [] }

/-- Whether a fetch outcome is the populated bundle. -/
def isBundle : FetchResult → Bool
  | FetchResult.bundle _ => true
  | _ => false

/-- Number of repositories in the returned bundle (0 for the sentinels). -/
def repoCount : FetchResult → Nat
  | FetchResult.bundle d => d.repos.length
  | _ => 0

/-- The inputs `calculate_documentation_score` reads, as one tuple. -/
def docSignals (r : Repo) : Bool × Bool × Bool × Bool × Bool :=
  (r.readme_exists, truthyStr r.description, truthyStr r.homepage, r.has_wiki, r.has_pages)

/-- The inputs `calculate_code_quality_score` reads, as one tuple. -/
def codeSignals (r : Repo) : Bool × Bool × Bool × Bool × Bool :=
  (decide (0 < r.languages_count), r.has_issues, r.has_projects,
   decide (0 < r.size), decide (0 < r.stargazers_count))

/-- The inputs `calculate_activity_score` reads, as one tuple: the clock
enters only through the day difference. -/
def activitySignals (r : Repo) (now : Int) : Int × Bool × Bool × Bool :=
  (Int.fdiv (now - r.pushed_at) 86400,
   decide (0 < r.open_issues_count), decide (0 < r.forks_count),
   decide (0 < r.watchers_count))

/-- A minimal user profile for concrete runs. -/
def sampleUser : UserData :=
  { login := "octocat", name := none, bio := none, location := none,
    followers := 0, following := 0, public_repos := 1,
    created_at := "2020-01-01T00:00:00Z" }

/-- A minimal repository record for concrete runs. -/
def sampleRepo : Repo :=
  { name := "demo", full_name := "octocat/demo", description := none, homepage := none,
    has_wiki := false, has_pages := false, has_issues := false, has_projects := false,
    size := 0, stargazers_count := 0, forks_count := 0, open_issues_count := 0,
    watchers_count := 0, pushed_at := 0, language := none,
    languages_url := "octocat/demo/languages",
    readme_exists := false, readme_preview := none, languages := [],
    languages_count := 0, commit_activity := none,
    doc_score := 0, code_score := 0, activity_score := 0 }

/-- A network where the base fetch succeeds (one one-repository page) but the
per-repository languages request raises. -/
def netLangExn : Net :=
  { user := Resp.ok 200 sampleUser,
    repoPage := fun p => if p = 1 then Resp.ok 200 [sampleRepo] else Resp.ok 200 [],
    readme := fun _ => Resp.ok 404 "",
    langs := fun _ => Resp.exn,
    commits := fun _ => Resp.ok 404 [],
    orgs := Resp.ok 200 [] }

/-- A network where the base fetch succeeds and every enrichment call fails
benignly: the README and commit requests raise (caught locally), the languages
request returns a non-success status. -/
def netDegraded : Net :=
  { user := Resp.ok 200 sampleUser,
    repoPage := fun p => if p = 1 then Resp.ok 200 [sampleRepo] else Resp.ok 200 [],
    readme := fun _ => Resp.exn,
    langs := fun _ => Resp.ok 404 [],
    commits := fun _ => Resp.exn,
    orgs := Resp.ok 200 [] }

/-- A network serving two full pages of 30 repositories each, then empty
pages, with all enrichment calls well behaved. -/
def netSixty : Net :=
  { user := Resp.ok 200 sampleUser,
    repoPage := fun p => if p ≤ 2 then Resp.ok 200 (List.replicate 30 sampleRepo)
                         else Resp.ok 200 [],
    readme := fun _ => Resp.ok 404 "",
    langs := fun _ => Resp.ok 200 [("Python", 10)],
    commits := fun _ => Resp.ok 404 [],
    orgs := Resp.ok 200 [] }

/-- A one-repository bundle. -/
def sampleData : GHData := { user := sampleUser, repos := [sampleRepo], orgs := [] }

/-- A three-repository bundle on which many recommendation rules fire. -/
def recData : GHData :=
  { user := sampleUser, repos := [sampleRepo, sampleRepo, sampleRepo], orgs := [] }

/-- A dimension map carrying both keys the recommendation generator reads,
with values below both thresholds. -/
def recDims : List (String × ℚ) :=
  [("Documentation Quality", 50), ("Activity Consistency", 40)]

theorem pyRound_le (q : ℚ) (n : ℤ) (h : q ≤ (n : ℚ)) : pyRound q ≤ n := by
  unfold pyRound
  have hfl : (⌊q⌋ : ℚ) ≤ q := Int.floor_le q
  have hfn : ⌊q⌋ ≤ n := by
    have := Int.floor_le_floor h
    simpa using this
  split_ifs with h1 h2 h3
  · exact hfn
  · by_contra hc
    have hn : n ≤ ⌊q⌋ := by omega
    have hn2 : (n : ℚ) ≤ (⌊q⌋ : ℚ) := by exact_mod_cast hn
    linarith
  · exact hfn
  · by_contra hc
    have hn : n ≤ ⌊q⌋ := by omega
    have hn2 : (n : ℚ) ≤ (⌊q⌋ : ℚ) := by exact_mod_cast hn
    have h1' : (1 : ℚ) / 2 ≤ q - ⌊q⌋ := not_lt.mp h1
    linarith

theorem le_pyRound (q : ℚ) (n : ℤ) (h : (n : ℚ) ≤ q) : n ≤ pyRound q := by
  unfold pyRound
  have hfn : n ≤ ⌊q⌋ := by
    have := Int.floor_le_floor h
    simpa using this
  split_ifs <;> omega

theorem round1_le (q : ℚ) (n : ℤ) (h : q ≤ (n : ℚ)) : round1 q ≤ (n : ℚ) := by
  have h10 : 10 * q ≤ ((10 * n : ℤ) : ℚ) := by push_cast; linarith
  have hp := pyRound_le (10 * q) (10 * n) h10
  have hp2 : ((pyRound (10 * q) : ℤ) : ℚ) ≤ ((10 * n : ℤ) : ℚ) := by exact_mod_cast hp
  unfold round1
  rw [div_le_iff₀ (by norm_num : (0 : ℚ) < 10)]
  push_cast at hp2 ⊢
  linarith

theorem le_round1 (q : ℚ) (n : ℤ) (h : (n : ℚ) ≤ q) : (n : ℚ) ≤ round1 q := by
  have h10 : ((10 * n : ℤ) : ℚ) ≤ 10 * q := by push_cast; linarith
  have hp := le_pyRound (10 * q) (10 * n) h10
  have hp2 : ((10 * n : ℤ) : ℚ) ≤ ((pyRound (10 * q) : ℤ) : ℚ) := by exact_mod_cast hp
  unfold round1
  rw [le_div_iff₀ (by norm_num : (0 : ℚ) < 10)]
  push_cast at hp2 ⊢
  linarith

theorem get_readme_content_of_failed (x : Resp String) (h : respFailed x = true) :
    get_readme_content x = none := by
  cases x with
  | exn => rfl
  | ok s b =>
    simp only [respFailed, bne_iff_ne, ne_eq] at h
    simp [get_readme_content, h]

theorem get_commit_activity_of_failed (x : Resp (List Nat)) (h : respFailed x = true) :
    get_commit_activity x = none := by
  cases x with
  | exn => rfl
  | ok s b =>
    simp only [respFailed, bne_iff_ne, ne_eq] at h
    simp [get_commit_activity, h]

theorem fetchPages_isOk (net : Net) (hp : ∀ p, net.repoPage p ≠ Resp.exn) :
    ∀ (fuel page : Nat) (acc : List Repo), ∃ l, fetchPages net fuel page acc = Except.ok l := by
  intro fuel
  induction fuel with
  | zero => intro page acc; exact ⟨acc, rfl⟩
  | succ fuel ih =>
    intro page acc
    by_cases hlen : acc.length < 50
    · cases hpage : net.repoPage page with
      | exn => exact absurd hpage (hp page)
      | ok s pageRepos =>
        by_cases hs : s = 200
        · by_cases hemp : pageRepos.isEmpty
          · exact ⟨acc, by simp [fetchPages, hlen, hpage, hs, hemp]⟩
          · obtain ⟨l, hl⟩ := ih (page + 1) (acc ++ pageRepos)
            exact ⟨l, by simp [fetchPages, hlen, hpage, hs, hemp, hl]⟩
        · exact ⟨acc, by simp [fetchPages, hlen, hpage, hs]⟩
    · exact ⟨acc, by simp [fetchPages, hlen]⟩

theorem enrichAll_isOk (net : Net) (now : Int) (hl : ∀ u, net.langs u ≠ Resp.exn) :
    ∀ rs : List Repo, ∃ l, enrichAll net now rs = Except.ok l := by
  intro rs
  induction rs with
  | nil => exact ⟨[], rfl⟩
  | cons r rs ih =>
    obtain ⟨l, hlres⟩ := ih
    cases hlang : net.langs r.languages_url with
    | exn => exact absurd hlang (hl r.languages_url)
    | ok s b =>
      exact ⟨enrichOk net now r :: l, by simp [enrichAll, enrichRepo, hlang, hlres]⟩

/-- Claim C1 counterexample: on the valid-JSON model response consisting of an
empty object, `analyze_with_ai` returns a non-null decoded object that carries
none of the required AIAssessment fields — not null, and not a fully populated
object. -/
theorem C1_cex :
    analyze_with_ai (some "models/gemini-1.5-flash") (some "\x7b\x7d") = some (Json.obj []) ∧
    aiRequiredKeys.all (fun k => hasKey (Json.obj []) k) = false := by
  exact ⟨rfl, rfl⟩

/-- Claim C1 (amended): `analyze_with_ai` returns `None` when no model is
selected, when the generation call raises, or when the fence-stripped response
fails to decode as JSON; on a successful decode it returns the decoded value
unchanged, performing no schema validation, so the result can be an object
missing required AIAssessment keys. -/
theorem C1_analyze_with_ai_no_schema_validation :
    (∀ t, analyze_with_ai none t = none) ∧
    (∀ m, analyze_with_ai (some m) none = none) ∧
    (∀ m s, json_loads (stripFences s) = none → analyze_with_ai (some m) (some s) = none) ∧
    (∀ m s j, json_loads (stripFences s) = some j →
      analyze_with_ai (some m) (some s) = some j) := by
  refine ⟨fun t => rfl, fun m => rfl, fun m s h => ?_, fun m s j h => ?_⟩ <;>
    simp [analyze_with_ai, h]

/-- Claim C1 witness: a concrete markdown-fenced response whose inner JSON the
adapter strips and decodes. -/
theorem C1_witness :
    analyze_with_ai (some "models/gemini-1.5-flash")
      (some "```json\n\x7b \"score\": 1 \x7d\n```") =
    some (Json.obj [("score", Json.num 1)]) :=
  C1_analyze_with_ai_no_schema_validation.2.2.2 "models/gemini-1.5-flash"
    "```json\n\x7b \"score\": 1 \x7d\n```" (Json.obj [("score", Json.num 1)]) (by rfl)

/-- Claim C2 counterexample: with a network where the base fetch succeeds but
the per-repository languages request raises, the whole fetch returns the
`"ERROR"` failure sentinel — an enrichment failure aborts the fetch. -/
theorem C2_cex : get_enhanced_github_data true netLangExn 0 = FetchResult.error := by rfl

/-- Claim C2 (amended): a failing README fetch or commit-activity fetch
(non-success status or exception) and a non-success status from the languages
fetch each degrade that repository's field to an empty/absent value, and when
no enrichment request raises the fetch still returns the populated bundle; an
exception raised by the languages request, however, propagates out of the
enrichment loop and the whole fetch returns the failure sentinel. -/
theorem C2_enrichment_degradation :
    (∀ (net : Net) (now : Int) (r : Repo), net.langs r.languages_url ≠ Resp.exn →
      enrichRepo net now r = Except.ok (enrichOk net now r) ∧
      (respFailed (net.readme r.full_name) = true →
        (enrichOk net now r).readme_exists = false ∧
        (enrichOk net now r).readme_preview = none) ∧
      (respFailed (net.langs r.languages_url) = true →
        (enrichOk net now r).languages = [] ∧ (enrichOk net now r).languages_count = 0) ∧
      (respFailed (net.commits r.full_name) = true →
        (enrichOk net now r).commit_activity = none)) ∧
    (∀ (net : Net) (now : Int) (u : UserData),
      net.user = Resp.ok 200 u →
      (∀ p, net.repoPage p ≠ Resp.exn) →
      (∀ url, net.langs url ≠ Resp.exn) →
      net.orgs ≠ Resp.exn →
      isBundle (get_enhanced_github_data true net now) = true) := by
  constructor
  · intro net now r hlang
    refine ⟨?_, fun hr => ?_, fun hl => ?_, fun hc => ?_⟩
    · cases hx : net.langs r.languages_url with
      | exn => exact absurd hx hlang
      | ok s b => simp [enrichRepo, hx]
    · have hnone := get_readme_content_of_failed _ hr
      constructor <;> simp [enrichOk, hnone]
    · cases hx : net.langs r.languages_url with
      | exn => exact absurd hx hlang
      | ok s b =>
        rw [hx] at hl
        simp only [respFailed, bne_iff_ne, ne_eq] at hl
        constructor <;> simp [enrichOk, hx, hl]
    · have hnone := get_commit_activity_of_failed _ hc
      simp [enrichOk, hnone]
  · intro net now u hu hp hl ho
    obtain ⟨repos, hrep⟩ := fetchPages_isOk net hp 51 1 []
    obtain ⟨enh, henh⟩ := enrichAll_isOk net now hl repos
    cases horgs : net.orgs with
    | exn => exact absurd horgs ho
    | ok so orgsBody =>
      simp [get_enhanced_github_data, hu, hrep, henh, horgs, isBundle]

/-- Claim C2 witness: on a concrete network where the README and commit
requests raise and the languages request returns 404, enrichment succeeds with
all three fields degraded, and the whole fetch still returns the bundle. -/
theorem C2_witness :
    enrichRepo netDegraded 0 sampleRepo = Except.ok (enrichOk netDegraded 0 sampleRepo) ∧
    (enrichOk netDegraded 0 sampleRepo).readme_exists = false ∧
    (enrichOk netDegraded 0 sampleRepo).readme_preview = none ∧
    (enrichOk netDegraded 0 sampleRepo).languages = [] ∧
    (enrichOk netDegraded 0 sampleRepo).commit_activity = none ∧
    isBundle (get_enhanced_github_data true netDegraded 0) = true := by
  obtain ⟨h1, h2, h3, h4⟩ :=
    C2_enrichment_degradation.1 netDegraded 0 sampleRepo (by decide)
  refine ⟨h1, (h2 (by decide)).1, (h2 (by decide)).2, (h3 (by decide)).1, h4 (by decide), ?_⟩
  refine C2_enrichment_degradation.2 netDegraded 0 sampleUser rfl ?_ ?_ (by decide)
  · intro p
    by_cases hp : p = 1 <;> simp [netDegraded, hp]
  · intro url
    simp [netDegraded]

/-- Claim C3 counterexample: `calculate_activity_score` depends on the current
clock — the same repository record scores 40 when the push is fresh and 10 a
hundred days later, so two invocations on the same input value differ. -/
theorem C3_cex :
    calculate_activity_score sampleRepo 0 = 40 ∧
    calculate_activity_score sampleRepo (100 * 86400) = 10 ∧
    calculate_activity_score sampleRepo 0 ≠ calculate_activity_score sampleRepo (100 * 86400) := by
  refine ⟨by rfl, by rfl, by decide⟩

/-- Claim C3 (amended): the documentation, code-quality and portfolio scores
are pure functions of the listed inputs alone (two records agreeing on the
signals a function reads always score equally, and the portfolio score ignores
the user profile); the activity score is pure only once the `datetime.now()`
reading is an explicit input — it is determined by the day difference and the
three count signals, and varies with the clock. -/
theorem C3_scoring_determinism :
    (∀ r1 r2 : Repo, docSignals r1 = docSignals r2 →
      calculate_documentation_score r1 = calculate_documentation_score r2) ∧
    (∀ r1 r2 : Repo, codeSignals r1 = codeSignals r2 →
      calculate_code_quality_score r1 = calculate_code_quality_score r2) ∧
    (∀ (r1 r2 : Repo) (t1 t2 : Int), activitySignals r1 t1 = activitySignals r2 t2 →
      calculate_activity_score r1 t1 = calculate_activity_score r2 t2) ∧
    (∀ (d : GHData) (u : UserData),
      calculate_portfolio_score (FetchResult.bundle { d with user := u }) =
      calculate_portfolio_score (FetchResult.bundle d)) := by
  refine ⟨?_, ?_, ?_, fun d u => rfl⟩
  · intro r1 r2 h
    simp only [docSignals, Prod.mk.injEq] at h
    obtain ⟨h1, h2, h3, h4, h5⟩ := h
    simp only [calculate_documentation_score, h1, h2, h3, h4, h5]
  · intro r1 r2 h
    simp only [codeSignals, Prod.mk.injEq, decide_eq_decide] at h
    obtain ⟨h1, h2, h3, h4, h5⟩ := h
    simp only [calculate_code_quality_score, h1, h2, h3, h4, h5]
  · intro r1 r2 t1 t2 h
    simp only [activitySignals, Prod.mk.injEq, decide_eq_decide] at h
    obtain ⟨h1, h2, h3, h4⟩ := h
    simp only [calculate_activity_score, h1, h2, h3, h4]

/-- Claim C3 witness: two records differing only in fields the documentation
score does not read score equally. -/
theorem C3_witness :
    calculate_documentation_score sampleRepo =
    calculate_documentation_score { sampleRepo with name := "other", size := 5 } :=
  C3_scoring_determinism.1 sampleRepo { sampleRepo with name := "other", size := 5 } rfl

/-- Claim C4: the pagination loop's own comment says it gets "up to 50 repos",
and the claim caps the returned list at 50; but pages of 30 are appended whole
before the `len < 50` check, so a user with two full pages yields a bundle of
60 > 50 repositories. -/
theorem C4_sixty_repos :
    repoCount (get_enhanced_github_data true netSixty 0) = 60 ∧
    50 < repoCount (get_enhanced_github_data true netSixty 0) := by
  have h : repoCount (get_enhanced_github_data true netSixty 0) = 60 := by rfl
  exact ⟨h, by rw [h]; norm_num⟩

/-- Claim C5 counterexample: the five code-quality signals are not equally
weighted — a repository whose only signal is a detected language scores 20,
while one whose only signal is a non-zero size scores 25. -/
theorem C5_cex :
    calculate_code_quality_score { sampleRepo with languages_count := 1 } = 20 ∧
    calculate_code_quality_score { sampleRepo with size := 10 } = 25 ∧
    (20 : Nat) ≠ 25 := by
  refine ⟨by rfl, by rfl, by decide⟩

/-- Claim C5 (amended): `calculate_code_quality_score` is additive across the
five boolean/threshold signals with fixed — but unequal — shares: 20 for any
detected language, 15 for the issue tracker, 15 for project boards, 25 for
non-zero size, 25 for non-zero stars; the sum is capped at 100, and since the
shares total exactly 100 the cap never cuts. -/
theorem C5_code_quality_additive (r : Repo) :
    calculate_code_quality_score r =
      20 * (decide (0 < r.languages_count)).toNat + 15 * r.has_issues.toNat +
      15 * r.has_projects.toNat + 25 * (decide (0 < r.size)).toNat +
      25 * (decide (0 < r.stargazers_count)).toNat ∧
    calculate_code_quality_score r ≤ 100 := by
  constructor
  · unfold calculate_code_quality_score
    split_ifs with h1 h2 h3 h4 h5 <;> simp_all
  · exact Nat.min_le_right _ _

/-- Claim C6: the six dimension weights of `calculate_portfolio_score` sum to
exactly 1, and the rounded weighted combination `finalScoreOfDims` it applies
to the six dimension values stays within [0,100] whenever each dimension value
lies in [0,100]. -/
theorem C6_weights_convex :
    weights.documentation + weights.code_quality + weights.activity +
      weights.organization + weights.impact + weights.technical_depth = 1 ∧
    (∀ d1 d2 d3 d4 d5 d6 : ℚ,
      0 ≤ d1 → d1 ≤ 100 → 0 ≤ d2 → d2 ≤ 100 → 0 ≤ d3 → d3 ≤ 100 →
      0 ≤ d4 → d4 ≤ 100 → 0 ≤ d5 → d5 ≤ 100 → 0 ≤ d6 → d6 ≤ 100 →
      0 ≤ round1 (finalScoreOfDims d1 d2 d3 d4 d5 d6) ∧
      round1 (finalScoreOfDims d1 d2 d3 d4 d5 d6) ≤ 100) := by
  constructor
  · norm_num [weights]
  · intro d1 d2 d3 d4 d5 d6 h1a h1b h2a h2b h3a h3b h4a h4b h5a h5b h6a h6b
    have hlo : 0 ≤ finalScoreOfDims d1 d2 d3 d4 d5 d6 := by
      simp only [finalScoreOfDims, weights]
      norm_num
      linarith
    have hhi : finalScoreOfDims d1 d2 d3 d4 d5 d6 ≤ 100 := by
      simp only [finalScoreOfDims, weights]
      norm_num
      linarith
    constructor
    · have := le_round1 (finalScoreOfDims d1 d2 d3 d4 d5 d6) 0 (by exact_mod_cast hlo)
      simpa using this
    · have := round1_le (finalScoreOfDims d1 d2 d3 d4 d5 d6) 100 (by exact_mod_cast hhi)
      simpa using this

/-- Claim C6 witness: concrete in-range dimension values whose rounded
weighted combination lies in [0,100]. -/
theorem C6_witness :
    0 ≤ round1 (finalScoreOfDims 50 60 70 30 20 10) ∧
    round1 (finalScoreOfDims 50 60 70 30 20 10) ≤ 100 :=
  C6_weights_convex.2 50 60 70 30 20 10 (by norm_num) (by norm_num) (by norm_num)
    (by norm_num) (by norm_num) (by norm_num) (by norm_num) (by norm_num)
    (by norm_num) (by norm_num) (by norm_num) (by norm_num)

/-- Claim C7 counterexample: on the empty dimension map — exactly what
`calculate_portfolio_score` produces for a zero-repository bundle — the
generator raises `KeyError` (modelled as `none`) instead of returning a
recommendation list. -/
theorem C7_cex : get_actionable_recommendations sampleData [] = none := by rfl

/-- Claim C7 (amended): whenever the dimension map carries the two keys the
code subscripts, the result is the list of qualifying recommendations in
evaluation order (portfolio-wide rules first, then per-repository rules in
fetch order) truncated to its first five entries — a hard cap, not a
severity-ranked top five — and so has length at most 5; with a map missing
either key the code raises `KeyError` instead of returning. -/
theorem C7_recommendations_cap (d : GHData) (ds : List (String × ℚ)) (dq ac : ℚ)
    (h1 : ds.lookup "Documentation Quality" = some dq)
    (h2 : ds.lookup "Activity Consistency" = some ac) :
    get_actionable_recommendations d ds = some ((allRecommendations d dq ac).take 5) ∧
    ∀ l, get_actionable_recommendations d ds = some l → l.length ≤ 5 := by
  have hmain : get_actionable_recommendations d ds =
      some ((allRecommendations d dq ac).take 5) := by
    unfold get_actionable_recommendations
    rw [h1, h2]
  refine ⟨hmain, fun l hl => ?_⟩
  rw [hmain] at hl
  injection hl with hl
  rw [← hl, List.length_take]
  omega

/-- Claim C7 witness: a concrete run where eight rules qualify and exactly the
first five, in evaluation order, are returned. -/
theorem C7_witness :
    get_actionable_recommendations recData recDims =
      some ((allRecommendations recData 50 40).take 5) ∧
    ((allRecommendations recData 50 40).take 5).length = 5 ∧
    (allRecommendations recData 50 40).length = 8 := by
  have h := C7_recommendations_cap recData recDims 50 40 rfl rfl
  exact ⟨h.1, by rfl, by rfl⟩

/-- Claim C8: `calculate_documentation_score` is monotone non-decreasing in
each independent boolean signal — enabling the README flag, a non-empty
description, a non-empty homepage, the wiki flag or the pages flag, holding
the other fields fixed, never lowers the score. -/
theorem C8_doc_score_monotone :
    (∀ r : Repo, calculate_documentation_score r ≤
      calculate_documentation_score { r with readme_exists := true }) ∧
    (∀ (r : Repo) (s : String), s ≠ "" → calculate_documentation_score r ≤
      calculate_documentation_score { r with description := some s }) ∧
    (∀ (r : Repo) (s : String), s ≠ "" → calculate_documentation_score r ≤
      calculate_documentation_score { r with homepage := some s }) ∧
    (∀ r : Repo, calculate_documentation_score r ≤
      calculate_documentation_score { r with has_wiki := true }) ∧
    (∀ r : Repo, calculate_documentation_score r ≤
      calculate_documentation_score { r with has_pages := true }) := by
  have hts : ∀ s : String, s ≠ "" → truthyStr (some s) = true := by
    intro s hs
    simpa [truthyStr, bne_iff_ne] using hs
  refine ⟨fun r => ?_, fun r s hs => ?_, fun r s hs => ?_, fun r => ?_, fun r => ?_⟩ <;>
    unfold calculate_documentation_score <;>
    dsimp only <;>
    [skip; rw [hts s hs]; rw [hts s hs]; skip; skip] <;>
    split_ifs <;> simp_all

/-- Claim C8 witness: adding a concrete non-empty description to a concrete
repository does not lower its documentation score. -/
theorem C8_witness :
    calculate_documentation_score sampleRepo ≤
      calculate_documentation_score { sampleRepo with description := some "x" } :=
  C8_doc_score_monotone.2.1 sampleRepo "x" (by decide)

/-- Claim C9: for every repository record (with its parsed push timestamp) and
every clock reading, the recency bucketing contributes at least 10, so the
activity score always lies in [10,100] and is never 0. -/
theorem C9_activity_score_bounds (r : Repo) (now : Int) :
    10 ≤ calculate_activity_score r now ∧ calculate_activity_score r now ≤ 100 := by
  unfold calculate_activity_score
  refine ⟨?_, Nat.min_le_right _ _⟩
  dsimp only
  split_ifs <;> omega

/-- Claim C10: for every bundle with a non-empty repository list, the
dimension map binds Repository Organization to the rounded sum of three
20-point bonuses, which never exceeds 60, and Technical Depth to the rounded
capped language score, which never exceeds 40. -/
theorem C10_dimension_caps (d : GHData) (h : d.repos.isEmpty = false) :
    (calculate_portfolio_score (FetchResult.bundle d)).2.lookup "Repository Organization"
        = some (round1 (orgScoreOf d)) ∧
    round1 (orgScoreOf d) ≤ 60 ∧
    (calculate_portfolio_score (FetchResult.bundle d)).2.lookup "Technical Depth"
        = some (round1 (techScoreOf d)) ∧
    round1 (techScoreOf d) ≤ 40 := by
  have hcp : calculate_portfolio_score (FetchResult.bundle d) = portfolioBody d := by
    simp [calculate_portfolio_score, h]
  refine ⟨?_, ?_, ?_, ?_⟩
  · rw [hcp]; rfl
  · have horg : orgScoreOf d ≤ 60 := by
      unfold orgScoreOf
      split_ifs <;> norm_num
    have := round1_le (orgScoreOf d) 60 (by exact_mod_cast horg)
    simpa using this
  · rw [hcp]; rfl
  · have htech : techScoreOf d ≤ 40 := min_le_left _ _
    have := round1_le (techScoreOf d) 40 (by exact_mod_cast htech)
    simpa using this

/-- Claim C10 witness: the caps hold on a concrete one-repository bundle. -/
theorem C10_witness :
    (calculate_portfolio_score (FetchResult.bundle sampleData)).2.lookup "Repository Organization"
        = some (round1 (orgScoreOf sampleData)) ∧
    round1 (orgScoreOf sampleData) ≤ 60 ∧
    (calculate_portfolio_score (FetchResult.bundle sampleData)).2.lookup "Technical Depth"
        = some (round1 (techScoreOf sampleData)) ∧
    round1 (techScoreOf sampleData) ≤ 40 :=
  C10_dimension_caps sampleData rfl
